import Mathlib

/-!
Verification of the authentication core of the user-directory service
(actix template: models/user.rs, utils/jwt.rs, utils/hash.rs,
services/user_service.rs, handlers/users.rs, middleware/auth.rs;
tonic template: interceptors/mod.rs).

Machine integers are modelled as Nat with explicit reduction modulo 2^32
where u32 overflow matters; epoch timestamps as Nat; Uuid as an abstract Nat.
Fallible operations return Except over the embedded AppError taxonomy.
-/

namespace DevX

abbrev Uuid := Nat

abbrev Timestamp := Nat

/-- Kinds of jsonwebtoken crate errors that the service wraps in
AppError::JwtError (errors.rs line 43). -/
inductive JwtErrorKind where
  | invalidSignature
  | expiredSignature
deriving Repr, DecidableEq

/-- Kinds of bcrypt crate errors that the service wraps in
AppError::HashError (errors.rs line 46). -/
inductive BcryptErrorKind where
  | invalidHash
deriving Repr, DecidableEq

/-- AppError, embedded from errors.rs lines 13-47. -/
inductive AppError where
  | internalServerError
  | badRequest (msg : String)
  | unauthorized
  | forbidden
  | notFound (msg : String)
  | conflict (msg : String)
  | unprocessableEntity (msg : String)
  | databaseError
  | validationError (msg : String)
  | jwtError (kind : JwtErrorKind)
  | hashError (kind : BcryptErrorKind)
deriving Repr, DecidableEq

abbrev AppResult (α : Type) := Except AppError α

/-- User record, embedded from models/user.rs lines 7-19. -/
structure User where
  id : Uuid
  email : String
  username : String
  password_hash : String
  full_name : Option String
  is_active : Bool
  is_verified : Bool
  created_at : Timestamp
  updated_at : Timestamp
deriving Repr, DecidableEq

/-- Outward user payload, embedded from models/user.rs lines 58-67:
exactly the fields id, email, username, full_name, is_active,
is_verified, created_at. -/
structure UserResponse where
  id : Uuid
  email : String
  username : String
  full_name : Option String
  is_active : Bool
  is_verified : Bool
  created_at : Timestamp
deriving Repr, DecidableEq

/-- The From (User) conversion, embedded from models/user.rs lines 69-81. -/
def UserResponse.ofUser (user : User) : UserResponse :=
  { id := user.id
    email := user.email
    username := user.username
    full_name := user.full_name
    is_active := user.is_active
    is_verified := user.is_verified
    created_at := user.created_at }

/-- JWT claims, embedded from models/user.rs lines 83-89. -/
structure Claims where
  sub : Uuid
  email : String
  exp : Nat
  iat : Nat
deriving Repr, DecidableEq

/-- Modelled from the spec: the HMAC-SHA256 signature computed by the
jsonwebtoken crate (not part of src/) is modelled as a perfect MAC — the
signature value determines the signing secret and the signed payload, and
verification succeeds exactly when recomputing the MAC over the received
claims with the secret held by the verifier reproduces the attached signature. -/
structure JwtSig where
  keyOf : String
  payloadOf : Claims
deriving Repr, DecidableEq

def mkSig (secret : String) (c : Claims) : JwtSig :=
  { keyOf := secret, payloadOf := c }

/-- A token is its (decoded) claims together with the signature over them.
A malformed token string is represented as a token whose signature fails
to verify. -/
structure JwtToken where
  claims : Claims
  sig : JwtSig
deriving Repr, DecidableEq

/-- Modelled from the spec: the jsonwebtoken Validation::default() grants a
60-second clock-skew leeway on the expiry check (crate default; the code
at utils/jwt.rs line 36 passes Validation::default() unchanged). -/
def defaultLeewaySecs : Nat := 60

/-- create_jwt_token, embedded from utils/jwt.rs lines 7-30.
Duration::hours(expiry_hours) adds 3600 * expiry_hours seconds;
iat is the issuance instant, exp the issuance instant plus the TTL. -/
def create_jwt_token (user_id : Uuid) (email : String) (secret : String)
    (expiry_hours : Nat) (now : Timestamp) : AppResult JwtToken :=
  let expires_at : Timestamp := now + 3600 * expiry_hours
  let claims : Claims := { sub := user_id, email := email, exp := expires_at, iat := now }
  .ok { claims := claims, sig := mkSig secret claims }

/-- decode_jwt_token, embedded from utils/jwt.rs lines 32-40. The crate
rejects with ExpiredSignature exactly when exp < now - leeway, i.e. when
exp + leeway < now; otherwise, with a verifying signature, it returns the
claims. -/
def decode_jwt_token (token : JwtToken) (secret : String) (now : Timestamp) :
    AppResult Claims :=
  if token.sig ≠ mkSig secret token.claims then
    .error (.jwtError .invalidSignature)
  else if token.claims.exp + defaultLeewaySecs < now then
    .error (.jwtError .expiredSignature)
  else
    .ok token.claims

/-- The bcrypt-base64 alphabet used by the bcrypt crate for salt and
checksum encoding. -/
def bcryptAlphabet : List Char :=
  "./ABCDEFGHIJKLMNOPQRSTUVWXYZabcdefghijklmnopqrstuvwxyz0123456789".toList

/-- Splitting on the dollar separator, the list-level counterpart of the
split on the dollar character done by split_hash in the bcrypt crate. -/
def splitOnDollar : List Char → List (List Char)
  | [] => [[]]
  | c :: rest =>
    if c = '$' then
      [] :: splitOnDollar rest
    else
      match splitOnDollar rest with
      | [] => [[c]]
      | g :: gs => (c :: g) :: gs

/-- Decimal digit value of a character, when it is a digit. -/
def digitVal (c : Char) : Option Nat :=
  if '0' ≤ c ∧ c ≤ '9' then some (c.toNat - '0'.toNat) else none

def parseNatAux : List Char → Nat → Option Nat
  | [], acc => some acc
  | c :: cs, acc =>
    match digitVal c with
    | none => none
    | some d => parseNatAux cs (acc * 10 + d)

/-- Unsigned decimal parsing of a nonempty all-digit string, the
counterpart of parsing the cost segment as an unsigned integer. -/
def parseNatDigits (cs : List Char) : Option Nat :=
  if cs.isEmpty then none else parseNatAux cs 0

/-- Parsed modular-crypt digest parts: version tag, cost, 22-char salt,
31-char checksum. -/
structure HashParts where
  version : String
  cost : Nat
  salt : String
  checksum : String
deriving Repr, DecidableEq

/-- Modelled from the spec: digest parsing in the bcrypt crate (not part of
src/). split_hash splits the digest on the dollar sign, drops empty
segments, and requires exactly three segments: a version tag among
2a/2b/2x/2y, a cost that parses as an unsigned integer, and a 53-character
salt-plus-checksum block. The subsequent checks verify runs before
comparing checksums are folded in: the salt must lie in the bcrypt base64
alphabet and the cost must lie in the allowed range 4..=31. Every failure
of these checks makes verify in the crate return an error, never a boolean. -/
def bcryptParse (hash : String) : Option HashParts :=
  let raw_parts := (splitOnDollar hash.toList).filter (fun s => ¬ s.isEmpty)
  match raw_parts with
  | [ver, costStr, rest] =>
    if ver = "2a".toList ∨ ver = "2b".toList ∨ ver = "2x".toList ∨ ver = "2y".toList then
      match parseNatDigits costStr with
      | some c =>
        if rest.length = 53 then
          let salt := rest.take 22
          let chk := rest.drop 22
          if (salt.all (fun ch => decide (ch ∈ bcryptAlphabet))) ∧ 4 ≤ c ∧ c ≤ 31 then
            some { version := ver.asString, cost := c, salt := salt.asString,
                   checksum := chk.asString }
          else
            none
        else
          none
      | none => none
    else
      none
  | _ => none

/-- Modelled from the spec: verify from the bcrypt crate (not part of src/),
with the Blowfish-based checksum computation abstracted as the function
argument raw (cost, salt, password to checksum text). Parsing failures
yield InvalidHash; on a parsed digest the result is the boolean
constant-time comparison of the recomputed and stored checksums. -/
def bcrypt_verify (raw : Nat → String → String → String)
    (password : String) (hash : String) : Except BcryptErrorKind Bool :=
  match bcryptParse hash with
  | none => .error .invalidHash
  | some parts => .ok (raw parts.cost parts.salt password = parts.checksum)

/-- verify_password, embedded from utils/hash.rs lines 9-12: the question
mark operator propagates any bcrypt error as AppError::HashError. -/
def verify_password (raw : Nat → String → String → String)
    (password : String) (hash : String) : AppResult Bool :=
  match bcrypt_verify raw password hash with
  | .error e => .error (.hashError e)
  | .ok b => .ok b

/-- The trivial instantiation of the abstract bcrypt checksum core, used
to evaluate the model on concrete inputs along code paths that never reach
the checksum comparison. -/
def rawZero : Nat → String → String → String := fun _ _ _ => ""

/-- The user store, modelled as the list of persisted rows. -/
abbrev Store := List User

/-- get_user_by_email, embedded from services/user_service.rs lines 59-67:
a missing row becomes AppError::NotFound. -/
def get_user_by_email (store : Store) (email : String) : AppResult User :=
  match store.find? (fun u => u.email == email) with
  | none => .error (.notFound "User not found")
  | some u => .ok u

/-- get_user_by_id, embedded from services/user_service.rs lines 49-57. -/
def get_user_by_id (store : Store) (user_id : Uuid) : AppResult User :=
  match store.find? (fun u => u.id == user_id) with
  | none => .error (.notFound "User not found")
  | some u => .ok u

/-- verify_user_credentials, embedded from services/user_service.rs lines
157-169: email lookup (propagating its NotFound), then the deactivation
check, then password verification (propagating hash errors), with a
mismatch mapped to AppError::Unauthorized. -/
def verify_user_credentials (raw : Nat → String → String → String)
    (store : Store) (email : String) (password : String) : AppResult User :=
  match get_user_by_email store email with
  | .error e => .error e
  | .ok user =>
    if user.is_active = false then
      .error .forbidden
    else
      match verify_password raw password user.password_hash with
      | .error e => .error e
      | .ok valid =>
        if valid = false then .error .unauthorized else .ok user

/-- Paginated list payload, embedded from models/user.rs lines 106-113. -/
structure PaginatedResponse (α : Type) where
  data : List α
  total : Nat
  page : Nat
  limit : Nat
  total_pages : Nat
deriving Repr, DecidableEq

def U32_MOD : Nat := 2 ^ 32

/-- u32 wrapping decrement, modelling the page - 1 subtraction at
services/user_service.rs line 70 for u32 page values (page < 2^32). -/
def u32_sub_one (page : Nat) : Nat :=
  (page + (U32_MOD - 1)) % U32_MOD

/-- The zero-based offset the list operation passes to the store query
(services/user_service.rs line 70 feeding the OFFSET bind at line 83):
(page - 1) * limit in wrapping u32 arithmetic. -/
def get_users_offset (page limit : Nat) : Nat :=
  (u32_sub_one page * limit) % U32_MOD

/-- Modelled from the spec: services/user_service.rs line 88 computes
total_pages as ((total as f64) / (limit as f64)).ceil() as u32. IEEE-754
double arithmetic is outside this embedding; it is modelled as exact
ceiling division followed by the saturating float-to-u32 cast. The exact
model coincides with the f64 computation whenever 0 <= total < 2^53
(total and limit are then exactly representable and the rounding error of
the division, below half an ulp, cannot move the true quotient across an
integer because the fractional part, when nonzero, is at least 1/limit). -/
def total_pages_model (total limit : Nat) : Nat :=
  min ((total + limit - 1) / limit) (U32_MOD - 1)

/-- get_users, embedded from services/user_service.rs lines 69-97, over
the list store: COUNT is the store length and the LIMIT/OFFSET page is a
drop-then-take window in the store ordering. -/
def get_users (store : Store) (page limit : Nat) :
    AppResult (PaginatedResponse UserResponse) :=
  let offset := get_users_offset page limit
  let total := store.length
  let users := (store.drop offset).take limit
  .ok { data := users.map UserResponse.ofUser
        total := total
        page := page
        limit := limit
        total_pages := total_pages_model total limit }

/-- Partial-update patch, embedded from models/user.rs lines 32-40. -/
structure UpdateUser where
  email : Option String
  username : Option String
  full_name : Option String
  is_active : Option Bool
deriving Repr, DecidableEq

/-- A positional bind value of the dynamic update statement. -/
inductive SqlVal where
  | s (v : String)
  | b (v : Bool)
  | uid (v : Uuid)
deriving Repr, DecidableEq

/-- The built parameterized update statement: the rendered query text, the
placeholder index of each appended SET clause in append order, the
placeholder index of the WHERE id clause, and the positional parameter
list in bind order. -/
structure UpdateStatement where
  query : String
  set_placeholders : List Nat
  where_placeholder : Nat
  params : List SqlVal
deriving Repr, DecidableEq

/-- The query-building half of update_user, embedded from
services/user_service.rs lines 99-135: bind_count starts at 1; each set
field (in the fixed order email, username, full_name, is_active) appends
a SET clause numbered bind_count, pushes its value, and increments
bind_count; the WHERE id clause takes the final bind_count and the target
id is bound after all field values. -/
def build_update_query (user_id : Uuid) (update_user : UpdateUser) :
    UpdateStatement :=
  let query := "UPDATE users SET updated_at = NOW()"
  let bind_count := 1
  let bindings : List SqlVal := []
  let phs : List Nat := []
  let (query, bind_count, bindings, phs) :=
    match update_user.email with
    | some email =>
      (query ++ ", email = $" ++ toString bind_count, bind_count + 1,
       bindings ++ [SqlVal.s email], phs ++ [bind_count])
    | none => (query, bind_count, bindings, phs)
  let (query, bind_count, bindings, phs) :=
    match update_user.username with
    | some username =>
      (query ++ ", username = $" ++ toString bind_count, bind_count + 1,
       bindings ++ [SqlVal.s username], phs ++ [bind_count])
    | none => (query, bind_count, bindings, phs)
  let (query, bind_count, bindings, phs) :=
    match update_user.full_name with
    | some full_name =>
      (query ++ ", full_name = $" ++ toString bind_count, bind_count + 1,
       bindings ++ [SqlVal.s full_name], phs ++ [bind_count])
    | none => (query, bind_count, bindings, phs)
  let (query, bind_count, bindings, phs) :=
    match update_user.is_active with
    | some is_active =>
      (query ++ ", is_active = $" ++ toString bind_count, bind_count + 1,
       bindings ++ [SqlVal.b is_active], phs ++ [bind_count])
    | none => (query, bind_count, bindings, phs)
  { query := query ++ " WHERE id = $" ++ toString bind_count ++ " RETURNING *"
    set_placeholders := phs
    where_placeholder := bind_count
    params := bindings ++ [SqlVal.uid user_id] }

/-- The number of set fields of a patch. -/
def set_count (u : UpdateUser) : Nat :=
  (if u.email.isSome then 1 else 0) + (if u.username.isSome then 1 else 0) +
    (if u.full_name.isSome then 1 else 0) + (if u.is_active.isSome then 1 else 0)

/-- The values of the set fields in the fixed clause order email, username,
full_name, is_active. -/
def set_values (u : UpdateUser) : List SqlVal :=
  (u.email.map SqlVal.s).toList ++ (u.username.map SqlVal.s).toList ++
    (u.full_name.map SqlVal.s).toList ++ (u.is_active.map SqlVal.b).toList

/-- The row image produced by executing the built update statement on one
matching row: each set field overwrites, unset fields are untouched, and
updated_at is refreshed. -/
def apply_update (u : User) (patch : UpdateUser) (now : Timestamp) : User :=
  { u with
    email := patch.email.getD u.email
    username := patch.username.getD u.username
    full_name := match patch.full_name with
      | some f => some f
      | none => u.full_name
    is_active := patch.is_active.getD u.is_active
    updated_at := now }

/-- update_user (service), embedded from services/user_service.rs lines
99-142: executing the built statement updates every row whose id matches
and returns the updated row, or NotFound when no row matched. -/
def update_user_service (store : Store) (user_id : Uuid) (patch : UpdateUser)
    (now : Timestamp) : AppResult User × Store :=
  match store.find? (fun u => u.id == user_id) with
  | none => (.error (.notFound "User not found"), store)
  | some u =>
    (.ok (apply_update u patch now),
     store.map (fun v => if v.id == user_id then apply_update v patch now else v))

/-- delete_user (service), embedded from services/user_service.rs lines
144-155: DELETE by id; zero rows affected becomes NotFound. -/
def delete_user_service (store : Store) (user_id : Uuid) :
    AppResult Unit × Store :=
  let remaining := store.filter (fun u => ¬ (u.id == user_id))
  if remaining.length = store.length then
    (.error (.notFound "User not found"), store)
  else
    (.ok (), remaining)

/-- The inline self-only authorization check of the mutating handlers,
embedded from handlers/users.rs lines 187-190 and 213-216: Forbidden
unless the authenticated subject id equals the target record id. -/
def authorize_self (subject_id target_id : Uuid) : Except AppError Unit :=
  if subject_id ≠ target_id then .error .forbidden else .ok ()

/-- update_user (handler), embedded from handlers/users.rs lines 175-200,
with request-extension claims as an Option and the validator crate
patch validation abstracted as the function argument validate. The
store is threaded explicitly to expose whether the record changed. -/
def update_user_handler (validate : UpdateUser → Bool)
    (claims_opt : Option Claims) (user_id : Uuid) (patch : UpdateUser)
    (store : Store) (now : Timestamp) : AppResult UserResponse × Store :=
  match claims_opt with
  | none => (.error .unauthorized, store)
  | some claims =>
    if claims.sub ≠ user_id then
      (.error .forbidden, store)
    else if validate patch = false then
      (.error (.validationError "invalid input"), store)
    else
      match update_user_service store user_id patch now with
      | (.error e, st) => (.error e, st)
      | (.ok u, st) => (.ok (UserResponse.ofUser u), st)

/-- delete_user (handler), embedded from handlers/users.rs lines 202-221. -/
def delete_user_handler (claims_opt : Option Claims) (user_id : Uuid)
    (store : Store) : AppResult Unit × Store :=
  match claims_opt with
  | none => (.error .unauthorized, store)
  | some claims =>
    if claims.sub ≠ user_id then
      (.error .forbidden, store)
    else
      delete_user_service store user_id

/-- Login/registration/refresh response, embedded from models/user.rs
lines 49-56. -/
structure LoginResponse where
  access_token : JwtToken
  refresh_token : JwtToken
  token_type : String
  expires_in : Nat
  user : UserResponse
deriving Repr, DecidableEq

/-- refresh_token (handler), embedded from handlers/users.rs lines
96-134: decode the presented refresh token, load the subject by id, and
issue a fresh access/refresh pair; the TTL settings are in seconds and
are passed to the issuer divided by 3600 (hours). No is_active check
appears on this path. -/
def refresh_token_handler (refresh_tok : JwtToken) (secret : String)
    (now : Timestamp) (store : Store)
    (access_token_expiry refresh_token_expiry : Nat) :
    AppResult LoginResponse :=
  match decode_jwt_token refresh_tok secret now with
  | .error e => .error e
  | .ok claims =>
    match get_user_by_id store claims.sub with
    | .error e => .error e
    | .ok user =>
      match create_jwt_token user.id user.email secret
          (access_token_expiry / 3600) now with
      | .error e => .error e
      | .ok access_token =>
        match create_jwt_token user.id user.email secret
            (refresh_token_expiry / 3600) now with
        | .error e => .error e
        | .ok new_refresh_token =>
          .ok { access_token := access_token
                refresh_token := new_refresh_token
                token_type := "Bearer"
                expires_in := access_token_expiry
                user := UserResponse.ofUser user }

/-- A tonic-level status, embedded from the tonic template error
signalling (Status::unauthenticated). -/
inductive GrpcStatus where
  | unauthenticated (msg : String)
deriving Repr, DecidableEq

/-- auth_interceptor, embedded from the tonic template file
interceptors/mod.rs lines 5-27: a missing authorization metadata value is
rejected; a present value has an optional Bearer prefix stripped and the
request is then passed through with no token validation (the source
comments that JWT validation is skipped). The returned string is the
token text the interceptor extracted. -/
def auth_interceptor (authorization : Option String) :
    Except GrpcStatus String :=
  match authorization with
  | none => .error (.unauthenticated "No authorization token provided")
  | some s =>
    let token_str :=
      if ("Bearer ".toList).isPrefixOf s.toList then (s.toList.drop 7).asString else s
    .ok token_str

/-- C1 counterexample: on an empty store, login with an unknown email
fails with NotFound, not with the Unauthorized signal the claim requires,
so the external error does reveal whether the email exists. -/
theorem login_missing_email_not_found_cex :
    verify_user_credentials rawZero [] "a@x.com" "pw" =
      .error (.notFound "User not found") ∧
    AppError.notFound "User not found" ≠ AppError.unauthorized :=
  ⟨rfl, fun h => AppError.noConfusion h⟩

/-- C1 (amended): login fails with NotFound when the email is absent from
the store, with Forbidden when the record is deactivated (checked before
the password), and with Unauthorized exactly on a password mismatch for an
active user — the external signal therefore distinguishes a missing email
from a wrong password. -/
theorem login_error_taxonomy (raw : Nat → String → String → String)
    (store : Store) (email password : String) :
    (store.find? (fun u => u.email == email) = none →
      verify_user_credentials raw store email password =
        .error (.notFound "User not found")) ∧
    (∀ user, store.find? (fun u => u.email == email) = some user →
      user.is_active = false →
      verify_user_credentials raw store email password = .error .forbidden) ∧
    (∀ user, store.find? (fun u => u.email == email) = some user →
      user.is_active = true →
      verify_password raw password user.password_hash = .ok false →
      verify_user_credentials raw store email password = .error .unauthorized) := by
  refine ⟨fun h => ?_, fun user hfind hact => ?_, fun user hfind hact hpw => ?_⟩
  · simp [verify_user_credentials, get_user_by_email, h]
  · simp [verify_user_credentials, get_user_by_email, hfind, hact]
  · simp [verify_user_credentials, get_user_by_email, hfind, hact, hpw]

/-- C1 witness: a wrong password for an existing active user yields
Unauthorized, instantiating the mismatch branch of the taxonomy. -/
theorem login_error_taxonomy_witness :
    verify_user_credentials rawZero
      [{ id := 1, email := "a@x.com", username := "alice",
         password_hash := "$2b$12$abcdefghijklmnopqrstuvABCDEFGHIJKLMNOPQRSTUVWXYZ01234",
         full_name := none, is_active := true, is_verified := false,
         created_at := 0, updated_at := 0 }] "a@x.com" "wrongpw" =
      .error .unauthorized :=
  (login_error_taxonomy rawZero
      [{ id := 1, email := "a@x.com", username := "alice",
         password_hash := "$2b$12$abcdefghijklmnopqrstuvABCDEFGHIJKLMNOPQRSTUVWXYZ01234",
         full_name := none, is_active := true, is_verified := false,
         created_at := 0, updated_at := 0 }] "a@x.com" "wrongpw").2.2
    { id := 1, email := "a@x.com", username := "alice",
      password_hash := "$2b$12$abcdefghijklmnopqrstuvABCDEFGHIJKLMNOPQRSTUVWXYZ01234",
      full_name := none, is_active := true, is_verified := false,
      created_at := 0, updated_at := 0 }
    rfl rfl rfl

/-- C2 counterexample: a well-signed token whose expiry equals the
current time is accepted by validation, while the claim requires Invalid
for every token with expiry at or before now. -/
theorem token_at_exact_expiry_accepted_cex :
    decode_jwt_token
      { claims := { sub := 1, email := "a@x.com", exp := 1000, iat := 900 },
        sig := mkSig "topsecret" { sub := 1, email := "a@x.com", exp := 1000, iat := 900 } }
      "topsecret" 1000
      = .ok { sub := 1, email := "a@x.com", exp := 1000, iat := 900 } := rfl

/-- C2 (amended): for a well-signed token, validation succeeds exactly
when the current time is at most expiry plus the default 60-second
leeway; the boundary is inclusive on the valid side and a leeway is
granted, contrary to the exclusive no-leeway boundary the claim states. -/
theorem decode_expiry_boundary (secret : String) (c : Claims) (now : Nat) :
    decode_jwt_token { claims := c, sig := mkSig secret c } secret now = .ok c ↔
      now ≤ c.exp + defaultLeewaySecs := by
  unfold decode_jwt_token
  simp only [defaultLeewaySecs]
  rw [if_neg (by simp)]
  rcases Nat.lt_or_ge (c.exp + 60) now with h | h
  · rw [if_pos h]
    exact iff_of_false (by simp) (by omega)
  · rw [if_neg (Nat.not_lt.mpr h)]
    exact iff_of_true rfl (by omega)

/-- C3: for every combination of set and unset patch fields, the built
update statement has parameter count equal to the number of set fields
plus one, the SET placeholders are the contiguous sequence 1..k with each
value at the list position its placeholder names, and the target id is
bound to the last placeholder. -/
theorem build_update_invariants (user_id : Uuid) (u : UpdateUser) :
    (build_update_query user_id u).params.length = set_count u + 1 ∧
    (build_update_query user_id u).set_placeholders = List.range' 1 (set_count u) ∧
    (build_update_query user_id u).where_placeholder = set_count u + 1 ∧
    (build_update_query user_id u).params = set_values u ++ [SqlVal.uid user_id] := by
  obtain ⟨e, un, fn, ia⟩ := u
  cases e <;> cases un <;> cases fn <;> cases ia <;>
    exact ⟨rfl, rfl, rfl, rfl⟩

/-- C4: validating a freshly issued token with the issuing secret
succeeds and returns claims with the input subject id and email and with
exp equal to iat plus the hour TTL converted to seconds. -/
theorem issue_then_validate_roundtrip (user_id : Uuid) (email secret : String)
    (ttl_hours now : Nat) (h : 0 < ttl_hours) :
    ∃ tok claims,
      create_jwt_token user_id email secret ttl_hours now = .ok tok ∧
      decode_jwt_token tok secret now = .ok claims ∧
      claims.sub = user_id ∧ claims.email = email ∧
      claims.exp = claims.iat + 3600 * ttl_hours := by
  refine ⟨{ claims := { sub := user_id, email := email, exp := now + 3600 * ttl_hours, iat := now },
            sig := mkSig secret { sub := user_id, email := email, exp := now + 3600 * ttl_hours, iat := now } },
          { sub := user_id, email := email, exp := now + 3600 * ttl_hours, iat := now },
          rfl, ?_, rfl, rfl, rfl⟩
  unfold decode_jwt_token
  simp only [defaultLeewaySecs]
  rw [if_neg (by simp), if_neg (by omega)]

/-- C4 witness: the round trip at subject 5, a 2-hour TTL and issue time
100. -/
theorem issue_then_validate_roundtrip_witness :
    0 < 2 ∧
    ∃ tok claims,
      create_jwt_token 5 "u@x.com" "k" 2 100 = .ok tok ∧
      decode_jwt_token tok "k" 100 = .ok claims ∧
      claims.sub = 5 ∧ claims.email = "u@x.com" ∧
      claims.exp = claims.iat + 3600 * 2 :=
  ⟨by decide, issue_then_validate_roundtrip 5 "u@x.com" "k" 2 100 (by decide)⟩

/-- C5 counterexample: a malformed digest (the empty string) makes
credential verification return a HashError, not the value false the
claim requires. -/
theorem verify_malformed_digest_cex :
    verify_password rawZero "password123" "" = .error (.hashError .invalidHash) ∧
    (Except.error (AppError.hashError BcryptErrorKind.invalidHash) : AppResult Bool) ≠
      .ok false :=
  ⟨rfl, fun h => Except.noConfusion h⟩

/-- C5 (amended): verification returns an error exactly when the digest
fails bcrypt parsing; on a parseable digest it returns the boolean
checksum comparison, so a mismatching password yields false without an
error but a malformed digest yields a HashError rather than false. -/
theorem verify_password_error_iff_malformed
    (raw : Nat → String → String → String) (password hash : String) :
    ((∃ e, verify_password raw password hash = .error e) ↔ bcryptParse hash = none) ∧
    (∀ parts, bcryptParse hash = some parts →
      verify_password raw password hash =
        .ok (decide (raw parts.cost parts.salt password = parts.checksum))) := by
  rcases hp : bcryptParse hash with _ | parts
  · refine ⟨iff_of_true ⟨AppError.hashError BcryptErrorKind.invalidHash, ?_⟩ rfl,
      fun parts h => Option.noConfusion h⟩
    simp [verify_password, bcrypt_verify, hp]
  · refine ⟨iff_of_false ?_ (by simp), fun parts2 h => ?_⟩
    · rintro ⟨e, he⟩
      simp [verify_password, bcrypt_verify, hp] at he
    · injection h with h2
      subst h2
      simp [verify_password, bcrypt_verify, hp]

/-- C5 witness: a mismatching password against a well-formed digest
yields false without an error. -/
theorem verify_password_error_iff_malformed_witness :
    verify_password rawZero "pw"
      "$2b$12$abcdefghijklmnopqrstuvABCDEFGHIJKLMNOPQRSTUVWXYZ01234" = .ok false := by
  have h := (verify_password_error_iff_malformed rawZero "pw"
      "$2b$12$abcdefghijklmnopqrstuvABCDEFGHIJKLMNOPQRSTUVWXYZ01234").2
    { version := "2b", cost := 12, salt := "abcdefghijklmnopqrstuv",
      checksum := "ABCDEFGHIJKLMNOPQRSTUVWXYZ01234" } rfl
  rw [h]
  rfl

/-- C6: the self-only check passes exactly when the authenticated subject
id equals the target id, and on any mismatch both mutating handlers
return Forbidden and leave the store unchanged. -/
theorem self_only_authorization (validate : UpdateUser → Bool) (claims : Claims)
    (user_id : Uuid) (patch : UpdateUser) (store : Store) (now : Nat) :
    (authorize_self claims.sub user_id = .ok () ↔ claims.sub = user_id) ∧
    (claims.sub ≠ user_id →
      update_user_handler validate (some claims) user_id patch store now =
        (.error .forbidden, store) ∧
      delete_user_handler (some claims) user_id store =
        (.error .forbidden, store)) := by
  constructor
  · by_cases h : claims.sub = user_id
    · simp [authorize_self, h]
    · simp [authorize_self, h]
  · intro h
    exact ⟨by simp [update_user_handler, h], by simp [delete_user_handler, h]⟩

/-- C6 witness: identity with subject 1 targeting record 2 is rejected
with Forbidden by both mutating handlers and the store is unchanged. -/
theorem self_only_authorization_witness :
    (1 : Nat) ≠ 2 ∧
    (update_user_handler (fun _ => true)
        (some { sub := 1, email := "a@x.com", exp := 0, iat := 0 }) 2
        { email := none, username := none, full_name := none, is_active := none } [] 0 =
      (.error .forbidden, []) ∧
    delete_user_handler (some { sub := 1, email := "a@x.com", exp := 0, iat := 0 }) 2 [] =
      (.error .forbidden, [])) :=
  ⟨by decide,
   (self_only_authorization (fun _ => true)
      { sub := 1, email := "a@x.com", exp := 0, iat := 0 } 2
      { email := none, username := none, full_name := none, is_active := none } [] 0).2
     (by decide)⟩

/-- C7: evaluating the tonic interceptor at a present authorization value
that has no Bearer scheme and is never validated: the request is
accepted, while the claim (and the interceptor source comment about the
intended real implementation) requires authentication to succeed only
for a Bearer-prefixed token that validates. -/
theorem tonic_interceptor_skips_validation :
    auth_interceptor (some "garbage") = .ok "garbage" := rfl

/-- C8: the outward user payload is independent of the stored password
hash — two records differing only in that field produce identical
responses, and the response type carries exactly id, email, username,
full_name, is_active, is_verified, created_at. -/
theorem user_response_hides_password_hash (u : User) (h : String) :
    UserResponse.ofUser { u with password_hash := h } = UserResponse.ofUser u := rfl

/-- C9 counterexample: at page 2^31 + 1 and limit 2 the u32 offset
computation wraps to 0, not the mathematical (page - 1) times limit the
claim requires. -/
theorem pagination_offset_wrap_cex :
    get_users_offset (2 ^ 31 + 1) 2 = 0 ∧ ((2 ^ 31 + 1) - 1) * 2 = 2 ^ 32 ∧
    (0 : Nat) ≠ 2 ^ 32 :=
  ⟨by decide, by norm_num, by norm_num⟩

/-- C9 (amended): for page and limit at least 1, the store is queried
with offset (page - 1) times limit whenever that product stays below
2^32 (the u32 computation wraps modulo 2^32 beyond that), and
total_pages equals the ceiling of total divided by limit whenever total
fits in u32 (so the saturating cast does not bite; the f64 ceiling is
modelled as exact ceiling division, see total_pages_model). -/
theorem pagination_window (page limit total : Nat) (hp : 1 ≤ page)
    (hpage : page < U32_MOD) (hl : 1 ≤ limit)
    (hno : (page - 1) * limit < U32_MOD) (ht : total < U32_MOD) :
    get_users_offset page limit = (page - 1) * limit ∧
    total_pages_model total limit = (total + limit - 1) / limit := by
  constructor
  · unfold get_users_offset u32_sub_one
    unfold U32_MOD at hpage hno ⊢
    have h1 : (page + (2 ^ 32 - 1)) % 2 ^ 32 = page - 1 := by omega
    rw [h1, Nat.mod_eq_of_lt hno]
  · obtain ⟨L, rfl⟩ : ∃ L, limit = L + 1 := ⟨limit - 1, by omega⟩
    unfold total_pages_model
    unfold U32_MOD at ht ⊢
    have h0 : total + (L + 1) - 1 = total + L := by omega
    rw [h0]
    have h2 : total + L < (total + 1) * (L + 1) := by nlinarith [Nat.zero_le (total * L)]
    have hle : (total + L) / (L + 1) ≤ total :=
      Nat.lt_succ_iff.mp ((Nat.div_lt_iff_lt_mul (Nat.succ_pos L)).mpr h2)
    exact min_eq_left (le_trans hle (by omega))

/-- C9 witness: page 3, limit 10, total 25 give offset 20 and 3 total
pages. -/
theorem pagination_window_witness :
    get_users_offset 3 10 = (3 - 1) * 10 ∧
    total_pages_model 25 10 = (25 + 10 - 1) / 10 :=
  pagination_window 3 10 25 (by norm_num) (by norm_num [U32_MOD]) (by norm_num)
    (by norm_num [U32_MOD]) (by norm_num [U32_MOD])

/-- C10: a decodable, unexpired refresh token whose subject exists in the
store yields a fresh token pair even when the subject record has
is_active = false — deactivation does not block the refresh path. -/
theorem refresh_ignores_deactivation (tok : JwtToken) (secret : String)
    (now : Nat) (store : Store) (attl rttl : Nat) (claims : Claims) (user : User)
    (hdec : decode_jwt_token tok secret now = .ok claims)
    (huser : get_user_by_id store claims.sub = .ok user)
    (hinactive : user.is_active = false) :
    ∃ resp, refresh_token_handler tok secret now store attl rttl = .ok resp ∧
      resp.user = UserResponse.ofUser user ∧ resp.token_type = "Bearer" ∧
      resp.expires_in = attl := by
  unfold refresh_token_handler
  simp only [hdec, huser, create_jwt_token]
  exact ⟨_, rfl, rfl, rfl, rfl⟩

/-- C10 witness: a deactivated subject 7 presenting a valid unexpired
refresh token is issued a fresh pair. -/
theorem refresh_ignores_deactivation_witness :
    ∃ resp,
      refresh_token_handler
        { claims := { sub := 7, email := "u@x.com", exp := 100, iat := 0 },
          sig := mkSig "k" { sub := 7, email := "u@x.com", exp := 100, iat := 0 } }
        "k" 50
        [{ id := 7, email := "u@x.com", username := "u7", password_hash := "h",
           full_name := none, is_active := false, is_verified := false,
           created_at := 0, updated_at := 0 }] 3600 86400 = .ok resp ∧
      resp.user = UserResponse.ofUser
        { id := 7, email := "u@x.com", username := "u7", password_hash := "h",
          full_name := none, is_active := false, is_verified := false,
          created_at := 0, updated_at := 0 } ∧
      resp.token_type = "Bearer" ∧ resp.expires_in = 3600 :=
  refresh_ignores_deactivation _ "k" 50 _ 3600 86400
    { sub := 7, email := "u@x.com", exp := 100, iat := 0 }
    { id := 7, email := "u@x.com", username := "u7", password_hash := "h",
      full_name := none, is_active := false, is_verified := false,
      created_at := 0, updated_at := 0 }
    rfl rfl rfl

end DevX
